import Mathlib

/-!
Shallow embedding of the Chandra OCR API service (src/main.py together with
the limits from src/config.py): upload extension detection and validation,
the engine invoker `run_chandra_ocr`, the output-artifact extraction, and
the two OCR endpoints with their try/finally workspace cleanup.

Modelling conventions:
* The upload body is modelled by its cumulative byte count (the streaming
  loop in the source only accumulates `file_size`); the declared
  content-type and filename are carried explicitly.
* The external engine subprocess is modelled by its observable behaviour
  (`EngineRun`): either a wall-clock timeout, or an exit with a return
  code, captured stderr, a measured duration, and the tree of files it
  wrote under the output directory.
* Logging, wall-clock measurement and spurious filesystem faults are
  outside the model; `shutil.rmtree(..., ignore_errors=True)` is modelled
  as a total cleanup step that never raises.
* JSON parsing of the metadata file is abstracted: the result carries the
  raw content of the first `*_metadata.json` file (a parse failure in the
  source is non-fatal and leaves metadata empty; no claim depends on the
  parse outcome).
-/

/-- Settings limit from src/config.py: MAX_FILE_SIZE = 100 * 1024 * 1024. -/
def MAX_FILE_SIZE : Nat := 100 * 1024 * 1024

/-- Settings limit from src/config.py: OCR_TIMEOUT = 600 seconds. -/
def OCR_TIMEOUT : Nat := 600

/-- Supported extension set of OCRProcessor (a Python set literal; order as
written in the source). -/
def SUPPORTED_EXTENSIONS : List String :=
  [".pdf", ".jpg", ".jpeg", ".png", ".bmp", ".tiff", ".tif", ".webp"]

/-- The fixed content-type to extension table of OCRProcessor. -/
def CONTENT_TYPE_MAP : List (String × String) :=
  [("application/pdf", ".pdf"),
   ("image/jpeg", ".jpg"),
   ("image/jpg", ".jpg"),
   ("image/png", ".png"),
   ("image/bmp", ".bmp"),
   ("image/tiff", ".tiff"),
   ("image/tif", ".tif"),
   ("image/webp", ".webp")]

/-- An incoming multipart upload: declared content-type, declared filename,
and the cumulative byte count of the streamed body. -/
structure UploadFile where
  content_type : Option String
  filename : Option String
  size : Nat
deriving DecidableEq

/-- Python `str.lower()`, expressed character by character so that it
evaluates by kernel reduction. -/
def str_lower (s : String) : String :=
  String.mk (s.data.map Char.toLower)

/-- Python `suffix in`-style suffix test (`str.endswith`), expressed over
the character lists. -/
def str_ends_with (s suffix : String) : Bool :=
  suffix.data.isSuffixOf s.data

/-- The characters after the last dot: `fn.rsplit(".", 1)[-1]` for a
string that contains a dot. -/
def after_last_dot (l : List Char) : List Char :=
  (l.reverse.takeWhile (fun c => c ≠ ('.'))).reverse

/-- Step 2 of detect_extension: the filename-derived candidate.  Mirrors
`if upload.filename and "." in upload.filename` followed by
`"." + filename.rsplit(".", 1)[-1].lower()` and the membership test
against the supported set; `none` when the branch does not return. -/
def filename_candidate_ext : Option String → Option String
  | none => none
  | some fn =>
    if fn = "" then none
    else if fn.data.contains ('.') then
      let ext := "." ++ str_lower (String.mk (after_last_dot fn.data))
      if SUPPORTED_EXTENSIONS.contains ext then some ext else none
    else none

/-- OCRProcessor.detect_extension: content-type table first, then the
filename extension, then the fallback ".bin". -/
def detect_extension (u : UploadFile) : String :=
  let content_type := str_lower (u.content_type.getD (""))
  match CONTENT_TYPE_MAP.lookup content_type with
  | some ext => ext
  | none =>
    match filename_candidate_ext u.filename with
    | some ext => ext
    | none => ".bin"

/-- OCRProcessor.validate_extension. -/
def validate_extension (ext : String) : Bool :=
  SUPPORTED_EXTENSIONS.contains (str_lower ext)

/-- A file written by the engine under the output directory: directory
components relative to the output directory, file name, and content. -/
structure OutFile where
  dirs : List String
  name : String
  content : String
deriving DecidableEq

/-- Observable behaviour of one engine subprocess invocation. -/
inductive EngineRun where
  | timedOut
  | completed (returncode : Int) (stderrOut : String) (duration : Nat)
      (outputs : List OutFile)
deriving DecidableEq

/-- The assembled job result (the dict built by run_chandra_ocr). -/
structure OCRJobResult where
  text : String
  html : String
  metadata : Option String
  images_count : Nat
  processing_time : Nat
deriving DecidableEq

/-- The exceptions run_chandra_ocr can raise. -/
inductive OCRError where
  | valueError (msg : String)
  | runtimeError (msg : String)
deriving DecidableEq

/-- Auxiliary injection used to decide equality of invocation results. -/
def exceptToSum : Except OCRError OCRJobResult → OCRError ⊕ OCRJobResult
  | .error e => .inl e
  | .ok a => .inr a

instance : DecidableEq (Except OCRError OCRJobResult) := fun a b =>
  decidable_of_iff (exceptToSum a = exceptToSum b)
    (by cases a <;> cases b <;> simp [exceptToSum])

/-- Result of calling run_chandra_ocr, together with the subprocess trace:
`subprocess_cmd = some cmd` exactly when `subprocess.run cmd` was reached
(also on the timeout path), `none` when the method check raised first. -/
structure InvokeOutcome where
  result : Except OCRError OCRJobResult
  subprocess_cmd : Option (List String)
deriving DecidableEq

/-- Python `str` path model: the parent directory and the file name, as
composed by `tmp_dir / f"input{ext}"`. -/
structure PyPath where
  parent : String
  name : String
deriving DecidableEq

/-- String form of a path, parent and name joined by a slash. -/
def path_str (p : PyPath) : String := p.parent ++ "/" ++ p.name

/-- Python slice `s[-n:]`: the last `n` characters of `s` (all of `s` when
it is shorter than `n`). -/
def take_last_chars (s : String) (n : Nat) : String :=
  String.mk (s.toList.drop (s.toList.length - n))

/-- The RuntimeError message for a non-zero engine exit: the exit code and
the last 2000 characters of captured stderr, with a fixed placeholder when
stderr is empty. -/
def engine_failure_detail (returncode : Int) (stderrOut : String) : String :=
  let error_msg := if stderrOut = "" then "Unknown error"
                   else take_last_chars stderrOut 2000
  "Ошибка OCR (код " ++ toString returncode ++ "): " ++ error_msg

/-- The RuntimeError message for a subprocess timeout. -/
def timeout_detail : String :=
  "Превышено время ожидания (" ++ toString OCR_TIMEOUT ++ "s)"

/-- The ValueError message of the method check (source apostrophes written
as escapes). -/
def method_value_error : String :=
  "method должен быть \x27hf\x27 или \x27vllm\x27"

/-- Files matched by `output_dir.glob("**/*.md")`. -/
def md_files (outs : List OutFile) : List OutFile :=
  outs.filter (fun f => str_ends_with f.name (".md"))

/-- Files matched by `output_dir.glob("**/*.html")`. -/
def html_files (outs : List OutFile) : List OutFile :=
  outs.filter (fun f => str_ends_with f.name (".html"))

/-- Files matched by `output_dir.glob("**/*_metadata.json")`. -/
def metadata_files (outs : List OutFile) : List OutFile :=
  outs.filter (fun f => str_ends_with f.name ("_metadata.json"))

/-- Files matched by `output_dir.glob("**/images/*.png")`: a `.png` file
whose immediate parent directory is named `images`. -/
def image_files (outs : List OutFile) : List OutFile :=
  outs.filter (fun f => (f.dirs.getLastD ("") == "images") && str_ends_with f.name (".png"))

/-- Content of the first markdown file, or "" when there is none
(`result['text']`). -/
def extracted_text (outs : List OutFile) : String :=
  match (md_files outs).head? with
  | some f => f.content
  | none => ""

/-- Content of the first HTML file, or "" when there is none
(`result['html']`). -/
def extracted_html (outs : List OutFile) : String :=
  match (html_files outs).head? with
  | some f => f.content
  | none => ""

/-- Raw content of the first metadata file, if any (`result['metadata']`;
JSON decoding abstracted, see module comment). -/
def extracted_metadata (outs : List OutFile) : Option String :=
  (metadata_files outs).head?.map (fun f => f.content)

/-- The argument list built by run_chandra_ocr: the base command followed
by the two exclude switches, each appended exactly when the corresponding
inclusive flag is false. -/
def build_chandra_cmd (input_path output_dir method : String)
    (include_images include_headers : Bool) : List String :=
  (["chandra", input_path, output_dir, "--method", method])
    ++ (if include_images then ([] : List String) else ["--no-images"])
    ++ (if include_headers then ([] : List String) else ["--no-headers-footers"])

/-- OCRProcessor.run_chandra_ocr: method validation, command construction,
subprocess execution (timeout and non-zero exit raise RuntimeError), then
output scanning with the final no-output check. -/
def run_chandra_ocr (input_path : PyPath) (method : String)
    (include_images include_headers : Bool) (run : EngineRun) : InvokeOutcome :=
  if method = "hf" ∨ method = "vllm" then
    let output_dir := input_path.parent ++ "/output"
    let cmd := build_chandra_cmd (path_str input_path) output_dir method
        include_images include_headers
    match run with
    | .timedOut => ⟨.error (.runtimeError timeout_detail), some cmd⟩
    | .completed rc stderrOut dur outs =>
      if rc = 0 then
        let text := extracted_text outs
        let html := extracted_html outs
        if text = "" ∧ html = "" then
          ⟨.error (.runtimeError ("OCR не создал выходные файлы")), some cmd⟩
        else
          ⟨.ok ⟨text, html, extracted_metadata outs, (image_files outs).length, dur⟩,
            some cmd⟩
      else
        ⟨.error (.runtimeError (engine_failure_detail rc stderrOut)), some cmd⟩
  else
    ⟨.error (.valueError method_value_error), none⟩

/-- Python `method or "hf"`: `None` and the empty string are falsy and
fall back to the default. -/
def py_str_or (m : Option String) (d : String) : String :=
  match m with
  | none => d
  | some s => if s = "" then d else s

/-- HTTP responses the endpoints can produce: the 200 plain-text body, an
HTTPException with status and detail, or the 200 JSON envelope. -/
inductive Response where
  | plainText (body : String)
  | httpError (status : Nat) (detail : String)
  | jsonOk (success : Bool) (text : String) (html : Option String)
      (metadata : Option String) (images_count : Nat) (processing_time : Nat)
      (file_size : Nat) (filename : Option String)
deriving DecidableEq

/-- Observable outcome of one endpoint call: the response, the subprocess
trace, whether the workspace directory exists afterwards, and whether the
input file was written into it. -/
structure EndpointOutcome where
  response : Response
  subprocess_cmd : Option (List String)
  tmp_dir_exists : Bool
  input_file_written : Bool
deriving DecidableEq

/-- Python `sep.join(items)`. -/
def join_sep (sep : String) : List String → String
  | [] => ""
  | [x] => x
  | x :: xs => x ++ sep ++ join_sep sep xs

/-- Detail string of the /ocr unsupported-format HTTPException.  The
source interpolates `', '.join(...)` over a Python set, whose iteration
order is unspecified; it is fixed here in the order of the set literal (no
claim depends on this ordering). -/
def unsupported_format_detail (ext : String) : String :=
  "Неподдерживаемый формат файла: " ++ ext ++ ". Поддерживаются: "
    ++ join_sep (", ") SUPPORTED_EXTENSIONS

/-- Detail string of the /ocr/json unsupported-format HTTPException. -/
def unsupported_format_detail_json (ext : String) : String :=
  "Неподдерживаемый формат: " ++ ext

/-- Detail string of the /ocr too-large HTTPException. -/
def file_too_large_detail (file_size : Nat) : String :=
  "Файл слишком большой: " ++ toString file_size ++ " байт. Максимум: "
    ++ toString MAX_FILE_SIZE ++ " байт"

/-- Detail string of the /ocr/json too-large HTTPException. -/
def file_too_large_detail_json (file_size : Nat) : String :=
  "Файл слишком большой: " ++ toString file_size ++ " байт"

/-- The try-block of ocr_endpoint: extension detection and validation,
streaming the body to `input.<ext>` (the file is created even for an empty
body), the empty and size checks, then the engine call with ValueError
mapped to 400 and RuntimeError to 500.  `tmp_dir_exists` is true on every
branch: the try-block never removes the workspace. -/
def ocr_endpoint_body (tmp_dir : String) (file : UploadFile)
    (method : Option String) (include_images include_headers : Bool)
    (run : EngineRun) : EndpointOutcome :=
  let ext := detect_extension file
  if validate_extension ext then
    let input_path : PyPath := ⟨tmp_dir, "input" ++ ext⟩
    let file_size := file.size
    if file_size = 0 then
      ⟨.httpError 400 ("Файл пустой"), none, true, true⟩
    else if MAX_FILE_SIZE < file_size then
      ⟨.httpError 400 (file_too_large_detail file_size), none, true, true⟩
    else
      let inv := run_chandra_ocr input_path (py_str_or method ("hf"))
          include_images include_headers run
      match inv.result with
      | .ok result => ⟨.plainText result.text, inv.subprocess_cmd, true, true⟩
      | .error (.valueError msg) => ⟨.httpError 400 msg, inv.subprocess_cmd, true, true⟩
      | .error (.runtimeError msg) => ⟨.httpError 500 msg, inv.subprocess_cmd, true, true⟩
  else
    ⟨.httpError 400 (unsupported_format_detail ext), none, true, false⟩

/-- The try-block of ocr_json_endpoint.  It has no ValueError handler:
only HTTPExceptions are re-raised as-is, every other exception (ValueError
and RuntimeError alike) falls into the generic handler and becomes a 500
with `str(e)` as detail. -/
def ocr_json_endpoint_body (tmp_dir : String) (file : UploadFile)
    (method : Option String) (include_images include_headers : Bool)
    (run : EngineRun) : EndpointOutcome :=
  let ext := detect_extension file
  if validate_extension ext then
    let input_path : PyPath := ⟨tmp_dir, "input" ++ ext⟩
    let file_size := file.size
    if file_size = 0 then
      ⟨.httpError 400 ("Файл пустой"), none, true, true⟩
    else if MAX_FILE_SIZE < file_size then
      ⟨.httpError 400 (file_too_large_detail_json file_size), none, true, true⟩
    else
      let inv := run_chandra_ocr input_path (py_str_or method ("hf"))
          include_images include_headers run
      match inv.result with
      | .ok r =>
        ⟨.jsonOk true r.text (if r.html = "" then none else some r.html)
            r.metadata r.images_count r.processing_time file_size file.filename,
          inv.subprocess_cmd, true, true⟩
      | .error (.valueError msg) => ⟨.httpError 500 msg, inv.subprocess_cmd, true, true⟩
      | .error (.runtimeError msg) => ⟨.httpError 500 msg, inv.subprocess_cmd, true, true⟩
  else
    ⟨.httpError 400 (unsupported_format_detail_json ext), none, true, false⟩

/-- The finally-block of both endpoints:
`shutil.rmtree(tmp_dir, ignore_errors=True)` removes the workspace, never
raises, and leaves the pending response or exception untouched. -/
def rmtree_release (o : EndpointOutcome) : EndpointOutcome :=
  { o with tmp_dir_exists := false }

/-- POST /ocr: the try-block wrapped in the unconditional cleanup. -/
def ocr_endpoint (tmp_dir : String) (file : UploadFile) (method : Option String)
    (include_images include_headers : Bool) (run : EngineRun) : EndpointOutcome :=
  rmtree_release (ocr_endpoint_body tmp_dir file method include_images include_headers run)

/-- POST /ocr/json: the try-block wrapped in the unconditional cleanup. -/
def ocr_json_endpoint (tmp_dir : String) (file : UploadFile) (method : Option String)
    (include_images include_headers : Bool) (run : EngineRun) : EndpointOutcome :=
  rmtree_release (ocr_json_endpoint_body tmp_dir file method include_images include_headers run)

/-- Follows the spec text, for comparison with the implementation: the
spec describes `images_count` as the "count of files under a conventional
images subdirectory", i.e. every file whose immediate parent directory is
named `images`, regardless of file type. -/
def spec_images_file_count (outs : List OutFile) : Nat :=
  (outs.filter (fun f => f.dirs.getLastD ("") == "images")).length

/-! Helper lemmas about the invoker and the endpoint control flow. -/

lemma take_last_chars_suffix (s : String) (n : Nat) :
    (take_last_chars s n).data <:+ s.data :=
  List.drop_suffix _ _

lemma take_last_chars_length (s : String) (n : Nat) :
    (take_last_chars s n).data.length = min n s.data.length := by
  show (s.data.drop (s.data.length - n)).length = min n s.data.length
  rw [List.length_drop]
  omega

lemma py_str_or_of_enum (m : String) (hm : m = "hf" ∨ m = "vllm") :
    py_str_or (some m) ("hf") = m := by
  rcases hm with h | h <;> subst h <;> rfl

lemma run_chandra_ocr_bad_method (p : PyPath) (m : String)
    (ii ih : Bool) (run : EngineRun) (hm : ¬ (m = "hf" ∨ m = "vllm")) :
    run_chandra_ocr p m ii ih run
      = ⟨.error (.valueError method_value_error), none⟩ := by
  unfold run_chandra_ocr
  rw [if_neg hm]

lemma run_chandra_ocr_timeout (p : PyPath) (m : String)
    (ii ih : Bool) (hm : m = "hf" ∨ m = "vllm") :
    run_chandra_ocr p m ii ih .timedOut
      = ⟨.error (.runtimeError timeout_detail),
         some (build_chandra_cmd (path_str p) (p.parent ++ "/output") m ii ih)⟩ := by
  unfold run_chandra_ocr
  rw [if_pos hm]

lemma run_chandra_ocr_engine_failed (p : PyPath) (m : String) (ii ih : Bool)
    (rc : Int) (se : String) (dur : Nat) (outs : List OutFile)
    (hm : m = "hf" ∨ m = "vllm") (hrc : ¬ rc = 0) :
    run_chandra_ocr p m ii ih (.completed rc se dur outs)
      = ⟨.error (.runtimeError (engine_failure_detail rc se)),
         some (build_chandra_cmd (path_str p) (p.parent ++ "/output") m ii ih)⟩ := by
  unfold run_chandra_ocr
  rw [if_pos hm]
  dsimp only
  rw [if_neg hrc]

lemma run_chandra_ocr_no_output (p : PyPath) (m : String) (ii ih : Bool)
    (se : String) (dur : Nat) (outs : List OutFile)
    (hm : m = "hf" ∨ m = "vllm")
    (ht : extracted_text outs = "") (hh : extracted_html outs = "") :
    run_chandra_ocr p m ii ih (.completed 0 se dur outs)
      = ⟨.error (.runtimeError ("OCR не создал выходные файлы")),
         some (build_chandra_cmd (path_str p) (p.parent ++ "/output") m ii ih)⟩ := by
  unfold run_chandra_ocr
  rw [if_pos hm]
  dsimp only
  rw [if_pos rfl, if_pos ⟨ht, hh⟩]

lemma run_chandra_ocr_success (p : PyPath) (m : String) (ii ih : Bool)
    (se : String) (dur : Nat) (outs : List OutFile)
    (hm : m = "hf" ∨ m = "vllm")
    (hne : ¬ (extracted_text outs = "" ∧ extracted_html outs = "")) :
    run_chandra_ocr p m ii ih (.completed 0 se dur outs)
      = ⟨.ok ⟨extracted_text outs, extracted_html outs, extracted_metadata outs,
              (image_files outs).length, dur⟩,
         some (build_chandra_cmd (path_str p) (p.parent ++ "/output") m ii ih)⟩ := by
  unfold run_chandra_ocr
  rw [if_pos hm]
  dsimp only
  rw [if_pos rfl, if_neg hne]

lemma ocr_endpoint_unsupported (tmp : String) (u : UploadFile)
    (method : Option String) (ii ih : Bool) (run : EngineRun)
    (h : validate_extension (detect_extension u) = false) :
    ocr_endpoint tmp u method ii ih run
      = ⟨.httpError 400 (unsupported_format_detail (detect_extension u)),
         none, false, false⟩ := by
  unfold ocr_endpoint ocr_endpoint_body rmtree_release
  simp [h]

lemma ocr_json_endpoint_unsupported (tmp : String) (u : UploadFile)
    (method : Option String) (ii ih : Bool) (run : EngineRun)
    (h : validate_extension (detect_extension u) = false) :
    ocr_json_endpoint tmp u method ii ih run
      = ⟨.httpError 400 (unsupported_format_detail_json (detect_extension u)),
         none, false, false⟩ := by
  unfold ocr_json_endpoint ocr_json_endpoint_body rmtree_release
  simp [h]

lemma ocr_endpoint_empty_file (tmp : String) (u : UploadFile)
    (method : Option String) (ii ih : Bool) (run : EngineRun)
    (hval : validate_extension (detect_extension u) = true)
    (hz : u.size = 0) :
    ocr_endpoint tmp u method ii ih run
      = ⟨.httpError 400 ("Файл пустой"), none, false, true⟩ := by
  unfold ocr_endpoint ocr_endpoint_body rmtree_release
  simp [hval, hz]

lemma ocr_json_endpoint_empty_file (tmp : String) (u : UploadFile)
    (method : Option String) (ii ih : Bool) (run : EngineRun)
    (hval : validate_extension (detect_extension u) = true)
    (hz : u.size = 0) :
    ocr_json_endpoint tmp u method ii ih run
      = ⟨.httpError 400 ("Файл пустой"), none, false, true⟩ := by
  unfold ocr_json_endpoint ocr_json_endpoint_body rmtree_release
  simp [hval, hz]

lemma ocr_endpoint_too_large (tmp : String) (u : UploadFile)
    (method : Option String) (ii ih : Bool) (run : EngineRun)
    (hval : validate_extension (detect_extension u) = true)
    (hbig : MAX_FILE_SIZE < u.size) :
    ocr_endpoint tmp u method ii ih run
      = ⟨.httpError 400 (file_too_large_detail u.size), none, false, true⟩ := by
  have h0 : ¬ u.size = 0 := by
    intro h
    rw [h] at hbig
    exact absurd hbig (by decide)
  unfold ocr_endpoint ocr_endpoint_body rmtree_release
  simp [hval, h0, hbig]

lemma ocr_json_endpoint_too_large (tmp : String) (u : UploadFile)
    (method : Option String) (ii ih : Bool) (run : EngineRun)
    (hval : validate_extension (detect_extension u) = true)
    (hbig : MAX_FILE_SIZE < u.size) :
    ocr_json_endpoint tmp u method ii ih run
      = ⟨.httpError 400 (file_too_large_detail_json u.size), none, false, true⟩ := by
  have h0 : ¬ u.size = 0 := by
    intro h
    rw [h] at hbig
    exact absurd hbig (by decide)
  unfold ocr_json_endpoint ocr_json_endpoint_body rmtree_release
  simp [hval, h0, hbig]

lemma ocr_endpoint_engine_result (tmp : String) (u : UploadFile)
    (method : Option String) (ii ih : Bool) (run : EngineRun)
    (res : Except OCRError OCRJobResult) (cmd : Option (List String))
    (hval : validate_extension (detect_extension u) = true)
    (h0 : ¬ u.size = 0) (hmax : ¬ MAX_FILE_SIZE < u.size)
    (hrun : run_chandra_ocr ⟨tmp, "input" ++ detect_extension u⟩
        (py_str_or method ("hf")) ii ih run = ⟨res, cmd⟩) :
    ocr_endpoint tmp u method ii ih run
      = (match res with
         | .ok r => ⟨.plainText r.text, cmd, false, true⟩
         | .error (.valueError msg) => ⟨.httpError 400 msg, cmd, false, true⟩
         | .error (.runtimeError msg) => ⟨.httpError 500 msg, cmd, false, true⟩) := by
  unfold ocr_endpoint ocr_endpoint_body rmtree_release
  simp only [hval, h0, hmax, if_true, ite_true, ite_false, if_false,
    eq_self_iff_true, not_false_iff]
  simp [hrun]
  rcases res with e | r
  · rcases e with msg | msg <;> rfl
  · rfl

lemma ocr_json_endpoint_engine_result (tmp : String) (u : UploadFile)
    (method : Option String) (ii ih : Bool) (run : EngineRun)
    (res : Except OCRError OCRJobResult) (cmd : Option (List String))
    (hval : validate_extension (detect_extension u) = true)
    (h0 : ¬ u.size = 0) (hmax : ¬ MAX_FILE_SIZE < u.size)
    (hrun : run_chandra_ocr ⟨tmp, "input" ++ detect_extension u⟩
        (py_str_or method ("hf")) ii ih run = ⟨res, cmd⟩) :
    ocr_json_endpoint tmp u method ii ih run
      = (match res with
         | .ok r =>
           ⟨.jsonOk true r.text (if r.html = "" then none else some r.html)
               r.metadata r.images_count r.processing_time u.size u.filename,
             cmd, false, true⟩
         | .error (.valueError msg) => ⟨.httpError 500 msg, cmd, false, true⟩
         | .error (.runtimeError msg) => ⟨.httpError 500 msg, cmd, false, true⟩) := by
  unfold ocr_json_endpoint ocr_json_endpoint_body rmtree_release
  simp only [hval, h0, hmax, if_true, ite_true, ite_false, if_false,
    eq_self_iff_true, not_false_iff]
  simp [hrun]
  rcases res with e | r
  · rcases e with msg | msg <;> rfl
  · rfl

/-! Claim theorems. -/

/-- Claim C1: for every request to POST /ocr or POST /ocr/json, the
per-request workspace is removed on every exit path out of the pipeline
(success, unsupported-format rejection, empty-file rejection, too-large
rejection, engine failure, engine timeout): the try-block leaves the
workspace in place on every branch, the unconditional finally-block
removes it without altering the pending response, so after any outcome
the workspace directory no longer exists.  Removal errors are swallowed
in the source (`ignore_errors=True` plus a try/except around the
cleanup); the model's cleanup step is correspondingly total. -/
theorem ocr_workspace_released_on_all_paths
    (tmp : String) (u : UploadFile) (method : Option String)
    (ii ih : Bool) (run : EngineRun) :
    (ocr_endpoint tmp u method ii ih run).tmp_dir_exists = false
      ∧ (ocr_json_endpoint tmp u method ii ih run).tmp_dir_exists = false
      ∧ (ocr_endpoint tmp u method ii ih run).response
          = (ocr_endpoint_body tmp u method ii ih run).response
      ∧ (ocr_json_endpoint tmp u method ii ih run).response
          = (ocr_json_endpoint_body tmp u method ii ih run).response
      ∧ (ocr_endpoint_body tmp u method ii ih run).tmp_dir_exists = true
      ∧ (ocr_json_endpoint_body tmp u method ii ih run).tmp_dir_exists = true := by
  refine ⟨rfl, rfl, rfl, rfl, ?_, ?_⟩
  · unfold ocr_endpoint_body
    dsimp only
    split
    · split
      · rfl
      · split
        · rfl
        · split <;> rfl
    · rfl
  · unfold ocr_json_endpoint_body
    dsimp only
    split
    · split
      · rfl
      · split
        · rfl
        · split <;> rfl
    · rfl

/-- Claim C3: detect_extension gives the fixed MIME table precedence over
the filename: whenever the lower-cased declared content-type is a key of
the table the mapped extension is returned, whatever the filename; and
whenever the content-type is absent or unmapped but the declared filename
carries a dot-separated extension whose lower-cased form is in the
supported set, that filename extension is returned. -/
theorem detect_extension_policy (u : UploadFile) :
    (∀ ext, CONTENT_TYPE_MAP.lookup (str_lower (u.content_type.getD (""))) = some ext →
        detect_extension u = ext)
      ∧ (∀ fn, CONTENT_TYPE_MAP.lookup (str_lower (u.content_type.getD (""))) = none →
          u.filename = some fn →
          fn.data.contains ('.') = true →
          SUPPORTED_EXTENSIONS.contains
            ("." ++ str_lower (String.mk (after_last_dot fn.data))) = true →
          detect_extension u = "." ++ str_lower (String.mk (after_last_dot fn.data))) := by
  constructor
  · intro ext h
    unfold detect_extension
    simp [h]
  · intro fn hct hfn hdot hsup
    unfold detect_extension
    simp only [hct]
    rw [hfn]
    unfold filename_candidate_ext
    have hne : ¬ fn = "" := by
      intro h
      rw [h] at hdot
      exact absurd hdot (by decide)
    dsimp only
    rw [if_neg hne, if_pos hdot]
    show (match (if SUPPORTED_EXTENSIONS.contains ("." ++ str_lower (String.mk (after_last_dot fn.data))) = true
          then some ("." ++ str_lower (String.mk (after_last_dot fn.data))) else none : Option String) with
      | some ext => ext
      | none => ".bin")
      = "." ++ str_lower (String.mk (after_last_dot fn.data))
    rw [if_pos hsup]

/-- Witness for C3 at concrete uploads: a mapped content-type (case
folded) wins over the filename extension, and an unmapped content-type
falls back to the supported filename extension (case folded). -/
theorem detect_extension_policy_witness :
    detect_extension ⟨some ("Image/PNG"), some ("photo.jpg"), 1⟩ = ".png"
      ∧ detect_extension ⟨some ("text/plain"), some ("scan.TIFF"), 2⟩ = ".tiff" := by
  constructor
  · exact (detect_extension_policy ⟨some ("Image/PNG"), some ("photo.jpg"), 1⟩).1
      (".png") (by decide)
  · exact (detect_extension_policy ⟨some ("text/plain"), some ("scan.TIFF"), 2⟩).2
      ("scan.TIFF") (by decide) rfl (by decide) (by decide)

/-- Claim C6: for a method in the fixed enum the invoker builds exactly
the argument list [engine, input_path, output_dir, --method, method],
then appends --no-images exactly when the include-images flag is false
and --no-headers-footers exactly when the include-headers flag is false,
and run_chandra_ocr records exactly this command for the subprocess. -/
theorem chandra_cmd_construction (inp outd m : String) (ii ih : Bool)
    (hm : m = "hf" ∨ m = "vllm") :
    build_chandra_cmd inp outd m ii ih
        = (["chandra", inp, outd, "--method", m]
            ++ (if ii then ([] : List String) else ["--no-images"]))
            ++ (if ih then ([] : List String) else ["--no-headers-footers"])
      ∧ ((("--no-images") ∈ (build_chandra_cmd inp outd m ii ih).drop 5) ↔ ii = false)
      ∧ ((("--no-headers-footers") ∈ (build_chandra_cmd inp outd m ii ih).drop 5) ↔ ih = false)
      ∧ (∀ (p : PyPath) (run : EngineRun),
          (run_chandra_ocr p m ii ih run).subprocess_cmd
            = some (build_chandra_cmd (path_str p) (p.parent ++ "/output") m ii ih)) := by
  refine ⟨rfl, ?_, ?_, ?_⟩
  · cases ii <;> cases ih <;> simp [build_chandra_cmd]
  · cases ii <;> cases ih <;> simp [build_chandra_cmd]
  · intro p run
    unfold run_chandra_ocr
    rw [if_pos hm]
    cases run with
    | timedOut => rfl
    | completed rc se dur outs =>
      dsimp only
      split
      · split <;> rfl
      · rfl

/-- Witness for C6 at a concrete job spec: method hf, include_images
false, include_headers true. -/
theorem chandra_cmd_construction_witness :
    build_chandra_cmd ("/ws/input.pdf") ("/ws/output") ("hf") false true
        = (["chandra", "/ws/input.pdf", "/ws/output", "--method", "hf"]
            ++ ([("--no-images")]))
            ++ ([] : List String)
      ∧ ((("--no-images") ∈ (build_chandra_cmd ("/ws/input.pdf") ("/ws/output") ("hf") false true).drop 5)
            ↔ false = false)
      ∧ (run_chandra_ocr ⟨"/ws", "input.pdf"⟩ ("hf") false true .timedOut).subprocess_cmd
          = some (build_chandra_cmd ("/ws/input.pdf") ("/ws/output") ("hf") false true) := by
  have h := chandra_cmd_construction ("/ws/input.pdf") ("/ws/output") ("hf") false true
    (Or.inl rfl)
  exact ⟨h.1, h.2.1, h.2.2.2 ⟨"/ws", "input.pdf"⟩ .timedOut⟩

/-- Counterexample to claim C2 as stated: an upload whose byte count
exceeds the maximum but whose format is unsupported (content-type
text/plain, filename a.txt) is rejected with the UnsupportedFormat
detail, not the FileTooLarge detail — format validation runs first. -/
theorem ocr_file_too_large_unsupported_type_counterexample :
    (ocr_endpoint ("/ws") ⟨some ("text/plain"), some ("a.txt"), MAX_FILE_SIZE + 1⟩
        (some ("hf")) false false (.completed 0 "" 1 [])).response
        = .httpError 400 (unsupported_format_detail (".bin"))
      ∧ unsupported_format_detail (".bin") ≠ file_too_large_detail (MAX_FILE_SIZE + 1)
      ∧ MAX_FILE_SIZE < MAX_FILE_SIZE + 1 := by
  decide

/-- Claim C2 (amended: the upload's resolved extension must be supported,
since format validation precedes the size check): an upload whose
cumulative byte count exceeds the configured maximum fails with the
FileTooLarge 400 on both endpoints and the engine subprocess is never
invoked (`subprocess_cmd = none`): size validation completes before
invocation begins. -/
theorem ocr_file_too_large_rejected_before_engine
    (tmp : String) (u : UploadFile) (method : Option String)
    (ii ih : Bool) (run : EngineRun)
    (hval : validate_extension (detect_extension u) = true)
    (hbig : MAX_FILE_SIZE < u.size) :
    ocr_endpoint tmp u method ii ih run
        = ⟨.httpError 400 (file_too_large_detail u.size), none, false, true⟩
      ∧ ocr_json_endpoint tmp u method ii ih run
        = ⟨.httpError 400 (file_too_large_detail_json u.size), none, false, true⟩ :=
  ⟨ocr_endpoint_too_large tmp u method ii ih run hval hbig,
   ocr_json_endpoint_too_large tmp u method ii ih run hval hbig⟩

/-- Witness for the amended C2: an oversized PDF upload. -/
theorem ocr_file_too_large_rejected_before_engine_witness :
    ocr_endpoint ("/ws") ⟨some ("application/pdf"), none, MAX_FILE_SIZE + 1⟩
        (some ("hf")) false false (.completed 0 "" 1 [])
        = ⟨.httpError 400 (file_too_large_detail (MAX_FILE_SIZE + 1)), none, false, true⟩
      ∧ ocr_json_endpoint ("/ws") ⟨some ("application/pdf"), none, MAX_FILE_SIZE + 1⟩
        (some ("hf")) false false (.completed 0 "" 1 [])
        = ⟨.httpError 400 (file_too_large_detail_json (MAX_FILE_SIZE + 1)), none, false, true⟩ :=
  ocr_file_too_large_rejected_before_engine ("/ws")
    ⟨some ("application/pdf"), none, MAX_FILE_SIZE + 1⟩ (some ("hf")) false false
    (.completed 0 "" 1 []) (by decide) (by decide)

/-- Claim C4: when the engine exits 0 but scanning leaves both the text
and the html fields empty, run_chandra_ocr raises the no-output
RuntimeError, and both endpoints surface it as HTTP 500 rather than an
empty success (in particular for an output tree holding only a metadata
file, as in the witness). -/
theorem ocr_no_output_produced
    (tmp : String) (u : UploadFile) (m : String) (ii ih : Bool)
    (se : String) (dur : Nat) (outs : List OutFile)
    (hm : m = "hf" ∨ m = "vllm")
    (hval : validate_extension (detect_extension u) = true)
    (h0 : ¬ u.size = 0) (hmax : ¬ MAX_FILE_SIZE < u.size)
    (ht : extracted_text outs = "") (hh : extracted_html outs = "") :
    (run_chandra_ocr ⟨tmp, "input" ++ detect_extension u⟩ m ii ih
        (.completed 0 se dur outs)).result
        = .error (.runtimeError ("OCR не создал выходные файлы"))
      ∧ (ocr_endpoint tmp u (some m) ii ih (.completed 0 se dur outs)).response
          = .httpError 500 ("OCR не создал выходные файлы")
      ∧ (ocr_json_endpoint tmp u (some m) ii ih (.completed 0 se dur outs)).response
          = .httpError 500 ("OCR не создал выходные файлы") := by
  have hrun := run_chandra_ocr_no_output ⟨tmp, "input" ++ detect_extension u⟩
    m ii ih se dur outs hm ht hh
  have hpy := py_str_or_of_enum m hm
  refine ⟨by rw [hrun], ?_, ?_⟩
  · rw [ocr_endpoint_engine_result tmp u (some m) ii ih (.completed 0 se dur outs)
      (.error (.runtimeError ("OCR не создал выходные файлы")))
      (some (build_chandra_cmd (path_str ⟨tmp, "input" ++ detect_extension u⟩)
        (tmp ++ "/output") m ii ih))
      hval h0 hmax (by rw [hpy]; exact hrun)]
  · rw [ocr_json_endpoint_engine_result tmp u (some m) ii ih (.completed 0 se dur outs)
      (.error (.runtimeError ("OCR не создал выходные файлы")))
      (some (build_chandra_cmd (path_str ⟨tmp, "input" ++ detect_extension u⟩)
        (tmp ++ "/output") m ii ih))
      hval h0 hmax (by rw [hpy]; exact hrun)]

/-- Witness for C4: a run that wrote only a metadata file and neither
markdown nor HTML fails with the no-output error, surfaced as 500. -/
theorem ocr_no_output_produced_witness :
    (run_chandra_ocr ⟨"/ws", "input.pdf"⟩ ("hf") false false
        (.completed 0 "" 2 [⟨[], "input_metadata.json", "meta"⟩])).result
        = .error (.runtimeError ("OCR не создал выходные файлы"))
      ∧ (ocr_endpoint ("/ws") ⟨some ("application/pdf"), none, 10⟩ (some ("hf")) false false
          (.completed 0 "" 2 [⟨[], "input_metadata.json", "meta"⟩])).response
        = .httpError 500 ("OCR не создал выходные файлы")
      ∧ (ocr_json_endpoint ("/ws") ⟨some ("application/pdf"), none, 10⟩ (some ("hf")) false false
          (.completed 0 "" 2 [⟨[], "input_metadata.json", "meta"⟩])).response
        = .httpError 500 ("OCR не создал выходные файлы") :=
  ocr_no_output_produced ("/ws") ⟨some ("application/pdf"), none, 10⟩ ("hf") false false
    "" 2 [⟨[], "input_metadata.json", "meta"⟩] (Or.inl rfl)
    (by decide) (by decide) (by decide) (by decide) (by decide)

/-- Claim C5: a non-zero engine exit makes run_chandra_ocr raise a
RuntimeError carrying the exit code and a diagnostic tail — the last 2000
characters of the captured stderr (a suffix of stderr of length
min 2000 len), or the fixed placeholder when stderr is empty — and both
endpoints map it to HTTP 500 with that message as the error detail. -/
theorem ocr_engine_failure_diagnostic
    (tmp : String) (u : UploadFile) (m : String) (ii ih : Bool)
    (rc : Int) (se : String) (dur : Nat) (outs : List OutFile)
    (hm : m = "hf" ∨ m = "vllm") (hrc : ¬ rc = 0)
    (hval : validate_extension (detect_extension u) = true)
    (h0 : ¬ u.size = 0) (hmax : ¬ MAX_FILE_SIZE < u.size) :
    (run_chandra_ocr ⟨tmp, "input" ++ detect_extension u⟩ m ii ih
        (.completed rc se dur outs)).result
        = .error (.runtimeError (engine_failure_detail rc se))
      ∧ (ocr_endpoint tmp u (some m) ii ih (.completed rc se dur outs)).response
          = .httpError 500 (engine_failure_detail rc se)
      ∧ (ocr_json_endpoint tmp u (some m) ii ih (.completed rc se dur outs)).response
          = .httpError 500 (engine_failure_detail rc se)
      ∧ (¬ se = "" → engine_failure_detail rc se
            = ("Ошибка OCR (код " ++ toString rc ++ "): ") ++ take_last_chars se 2000)
      ∧ (se = "" → engine_failure_detail rc se
            = ("Ошибка OCR (код " ++ toString rc ++ "): ") ++ "Unknown error")
      ∧ (take_last_chars se 2000).data <:+ se.data
      ∧ (take_last_chars se 2000).data.length = min 2000 se.data.length := by
  have hrun := run_chandra_ocr_engine_failed ⟨tmp, "input" ++ detect_extension u⟩
    m ii ih rc se dur outs hm hrc
  have hpy := py_str_or_of_enum m hm
  refine ⟨by rw [hrun], ?_, ?_, ?_, ?_, ?_, ?_⟩
  · rw [ocr_endpoint_engine_result tmp u (some m) ii ih (.completed rc se dur outs)
      (.error (.runtimeError (engine_failure_detail rc se)))
      (some (build_chandra_cmd (path_str ⟨tmp, "input" ++ detect_extension u⟩)
        (tmp ++ "/output") m ii ih))
      hval h0 hmax (by rw [hpy]; exact hrun)]
  · rw [ocr_json_endpoint_engine_result tmp u (some m) ii ih (.completed rc se dur outs)
      (.error (.runtimeError (engine_failure_detail rc se)))
      (some (build_chandra_cmd (path_str ⟨tmp, "input" ++ detect_extension u⟩)
        (tmp ++ "/output") m ii ih))
      hval h0 hmax (by rw [hpy]; exact hrun)]
  · intro hse
    unfold engine_failure_detail
    rw [if_neg hse]
  · intro hse
    unfold engine_failure_detail
    rw [if_pos hse]
  · exact take_last_chars_suffix se 2000
  · exact take_last_chars_length se 2000

/-- Witness for C5: exit code 3 with stderr "boom" yields the composed
diagnostic, and "boom" is its own 2000-character tail. -/
theorem ocr_engine_failure_diagnostic_witness :
    (run_chandra_ocr ⟨"/ws", "input.pdf"⟩ ("hf") false false
        (.completed 3 "boom" 1 [])).result
        = .error (.runtimeError (engine_failure_detail 3 ("boom")))
      ∧ (ocr_endpoint ("/ws") ⟨some ("application/pdf"), none, 10⟩ (some ("hf")) false false
          (.completed 3 "boom" 1 [])).response
        = .httpError 500 (engine_failure_detail 3 ("boom"))
      ∧ (take_last_chars ("boom") 2000).data.length = min 2000 ("boom" : String).data.length :=
  have h := ocr_engine_failure_diagnostic ("/ws") ⟨some ("application/pdf"), none, 10⟩
    ("hf") false false 3 ("boom") 1 [] (Or.inl rfl) (by decide)
    (by decide) (by decide) (by decide)
  ⟨h.1, h.2.1, h.2.2.2.2.2.2⟩

/-- Counterexample to claim C7 as stated: a 0-byte upload with an
unsupported declared content-type is rejected with the
UnsupportedFormat detail, not the EmptyFile detail — the outcome is not
independent of the declared content-type, because format validation runs
before the empty check. -/
theorem ocr_empty_file_unsupported_type_counterexample :
    (ocr_endpoint ("/ws") ⟨some ("text/plain"), some ("b.txt"), 0⟩ (some ("hf"))
        false false (.completed 0 "" 1 [])).response
        = .httpError 400 (unsupported_format_detail (".bin"))
      ∧ unsupported_format_detail (".bin") ≠ ("Файл пустой") := by
  decide

/-- Claim C7 (amended: among uploads whose resolved extension is
supported, since format validation precedes the empty check): a 0-byte
upload always fails with the EmptyFile 400 on both endpoints, whatever
supported content-type was declared, and the engine is not invoked. -/
theorem ocr_empty_file_rejected
    (tmp : String) (u : UploadFile) (method : Option String)
    (ii ih : Bool) (run : EngineRun)
    (hval : validate_extension (detect_extension u) = true)
    (hz : u.size = 0) :
    ocr_endpoint tmp u method ii ih run
        = ⟨.httpError 400 ("Файл пустой"), none, false, true⟩
      ∧ ocr_json_endpoint tmp u method ii ih run
        = ⟨.httpError 400 ("Файл пустой"), none, false, true⟩ :=
  ⟨ocr_endpoint_empty_file tmp u method ii ih run hval hz,
   ocr_json_endpoint_empty_file tmp u method ii ih run hval hz⟩

/-- Witness for the amended C7: an empty PNG upload. -/
theorem ocr_empty_file_rejected_witness :
    ocr_endpoint ("/ws") ⟨some ("image/png"), none, 0⟩ (some ("hf")) false false
        (.completed 0 "" 1 [])
        = ⟨.httpError 400 ("Файл пустой"), none, false, true⟩
      ∧ ocr_json_endpoint ("/ws") ⟨some ("image/png"), none, 0⟩ (some ("hf")) false false
        (.completed 0 "" 1 [])
        = ⟨.httpError 400 ("Файл пустой"), none, false, true⟩ :=
  ocr_empty_file_rejected ("/ws") ⟨some ("image/png"), none, 0⟩ (some ("hf")) false false
    (.completed 0 "" 1 []) (by decide) rfl

/-- Counterexample to claim C8 as stated: for an upload with neither a
recognized content-type nor a recognized filename extension, the fallback
.bin extension is assigned but the file is NOT written to disk — the
endpoint validates the extension and rejects before the streaming loop
that creates input.bin ever runs. -/
theorem ocr_unknown_format_not_written_counterexample :
    detect_extension ⟨none, some ("file.xyz"), 5⟩ = ".bin"
      ∧ (ocr_endpoint ("/ws") ⟨none, some ("file.xyz"), 5⟩ (some ("hf")) false false
          (.completed 0 "" 1 [])).input_file_written = false
      ∧ (ocr_endpoint ("/ws") ⟨none, some ("file.xyz"), 5⟩ (some ("hf")) false false
          (.completed 0 "" 1 [])).response
        = .httpError 400 (unsupported_format_detail (".bin")) := by
  decide

/-- Claim C8 (amended: the fallback-extension upload is rejected BEFORE
the file is written to disk, not after): with neither a recognized
content-type nor a recognized filename extension, detect_extension
assigns the generic .bin fallback, validation fails with the
UnsupportedFormat 400 on both endpoints before any byte is persisted
(`input_file_written = false`), the engine is never invoked, and the
pipeline does not crash on the unknown type. -/
theorem ocr_unknown_format_rejected_cleanly
    (tmp : String) (u : UploadFile) (method : Option String)
    (ii ih : Bool) (run : EngineRun)
    (hct : CONTENT_TYPE_MAP.lookup (str_lower (u.content_type.getD (""))) = none)
    (hfn : filename_candidate_ext u.filename = none) :
    detect_extension u = ".bin"
      ∧ ocr_endpoint tmp u method ii ih run
          = ⟨.httpError 400 (unsupported_format_detail (".bin")), none, false, false⟩
      ∧ ocr_json_endpoint tmp u method ii ih run
          = ⟨.httpError 400 (unsupported_format_detail_json (".bin")), none, false, false⟩ := by
  have hdet : detect_extension u = ".bin" := by
    unfold detect_extension
    simp [hct, hfn]
  have hv : validate_extension (detect_extension u) = false := by
    rw [hdet]
    decide
  refine ⟨hdet, ?_, ?_⟩
  · rw [ocr_endpoint_unsupported tmp u method ii ih run hv, hdet]
  · rw [ocr_json_endpoint_unsupported tmp u method ii ih run hv, hdet]

/-- Witness for the amended C8: a text/csv upload named data.csv. -/
theorem ocr_unknown_format_rejected_cleanly_witness :
    detect_extension ⟨some ("text/csv"), some ("data.csv"), 7⟩ = ".bin"
      ∧ ocr_endpoint ("/ws") ⟨some ("text/csv"), some ("data.csv"), 7⟩ (some ("hf"))
          false false (.completed 0 "" 1 [])
        = ⟨.httpError 400 (unsupported_format_detail (".bin")), none, false, false⟩
      ∧ ocr_json_endpoint ("/ws") ⟨some ("text/csv"), some ("data.csv"), 7⟩ (some ("hf"))
          false false (.completed 0 "" 1 [])
        = ⟨.httpError 400 (unsupported_format_detail_json (".bin")), none, false, false⟩ :=
  ocr_unknown_format_rejected_cleanly ("/ws") ⟨some ("text/csv"), some ("data.csv"), 7⟩
    (some ("hf")) false false (.completed 0 "" 1 []) (by decide) (by decide)

/-- Engine output tree used to separate the implemented images_count from
the spec's description: one markdown file plus one non-PNG file under
images/. -/
def mixed_images_outputs : List OutFile :=
  [⟨[], "page.md", "hi"⟩, ⟨["images"], "fig.jpg", "x"⟩]

/-- Counterexample to claim C9 as stated: for an output tree holding one
markdown file and one JPEG under images/, the pipeline reports
images_count = 0 although one file lies under the images subdirectory —
the implementation counts only `images/*.png` files, not all files under
images/. -/
theorem ocr_images_count_ignores_non_png_counterexample :
    (run_chandra_ocr ⟨"/ws", "input.pdf"⟩ ("hf") false false
        (.completed 0 "" 1 mixed_images_outputs)).result
        = .ok ⟨"hi", "", none, 0, 1⟩
      ∧ spec_images_file_count mixed_images_outputs = 1
      ∧ (image_files mixed_images_outputs).length = 0 := by
  decide

/-- Claim C9 (amended: images_count counts the `.png` files whose
immediate parent directory is named images, not every file under the
images subdirectory): on a successful run the JSON endpoint returns
success = true, the extracted text, and images_count equal to the number
of such `.png` files; the 3-PNG scenario of the spec is the witness. -/
theorem ocr_images_count_counts_pngs
    (tmp : String) (u : UploadFile) (m : String) (ii ih : Bool)
    (se : String) (dur : Nat) (outs : List OutFile)
    (hm : m = "hf" ∨ m = "vllm")
    (hval : validate_extension (detect_extension u) = true)
    (h0 : ¬ u.size = 0) (hmax : ¬ MAX_FILE_SIZE < u.size)
    (ht : ¬ extracted_text outs = "") :
    (ocr_json_endpoint tmp u (some m) ii ih (.completed 0 se dur outs)).response
        = .jsonOk true (extracted_text outs)
            (if extracted_html outs = "" then none else some (extracted_html outs))
            (extracted_metadata outs) ((image_files outs).length) dur u.size u.filename
      ∧ (image_files outs).length
          = (outs.filter (fun f => (f.dirs.getLastD ("") == "images")
              && str_ends_with f.name (".png"))).length := by
  have hne : ¬ (extracted_text outs = "" ∧ extracted_html outs = "") := fun h => ht h.1
  have hrun := run_chandra_ocr_success ⟨tmp, "input" ++ detect_extension u⟩
    m ii ih se dur outs hm hne
  have hpy := py_str_or_of_enum m hm
  refine ⟨?_, rfl⟩
  rw [ocr_json_endpoint_engine_result tmp u (some m) ii ih (.completed 0 se dur outs)
    (.ok ⟨extracted_text outs, extracted_html outs, extracted_metadata outs,
      (image_files outs).length, dur⟩)
    (some (build_chandra_cmd (path_str ⟨tmp, "input" ++ detect_extension u⟩)
      (tmp ++ "/output") m ii ih))
    hval h0 hmax (by rw [hpy]; exact hrun)]

/-- Witness for the amended C9: a markdown file with content Hello Мир
and 3 PNG files under images/ give images_count = 3 and success = true. -/
theorem ocr_images_count_counts_pngs_witness :
    (ocr_json_endpoint ("/ws") ⟨some ("image/png"), some ("scan.png"), 42⟩ (some ("hf"))
        false false (.completed 0 "" 7
          [⟨[], "out.md", "Hello Мир"⟩, ⟨["images"], "0.png", ""⟩,
           ⟨["images"], "1.png", ""⟩, ⟨["images"], "2.png", ""⟩])).response
      = .jsonOk true ("Hello Мир") none none 3 7 42 (some ("scan.png")) :=
  (ocr_images_count_counts_pngs ("/ws") ⟨some ("image/png"), some ("scan.png"), 42⟩
    ("hf") false false "" 7
    [⟨[], "out.md", "Hello Мир"⟩, ⟨["images"], "0.png", ""⟩,
     ⟨["images"], "1.png", ""⟩, ⟨["images"], "2.png", ""⟩]
    (Or.inl rfl) (by decide) (by decide) (by decide) (by decide)).1

/-- Counterexample to claim C10 as stated: the empty string is a method
form value that is neither hf nor vllm, yet with a valid upload both
endpoints succeed (200), because `method or "hf"` treats the empty
string as falsy and substitutes the default before the enum check. -/
theorem ocr_method_empty_string_counterexample :
    (ocr_endpoint ("/ws") ⟨some ("application/pdf"), some ("doc.pdf"), 10⟩ (some (""))
        false false (.completed 0 "" 1 [⟨[], "out.md", "hi"⟩])).response
        = .plainText ("hi")
      ∧ (ocr_json_endpoint ("/ws") ⟨some ("application/pdf"), some ("doc.pdf"), 10⟩ (some (""))
        false false (.completed 0 "" 1 [⟨[], "out.md", "hi"⟩])).response
        = .jsonOk true ("hi") none none 0 1 10 (some ("doc.pdf"))
      ∧ ¬ (("" : String) = "hf" ∨ ("" : String) = "vllm")
      ∧ Response.plainText ("hi") ≠ .httpError 400 method_value_error := by
  decide

/-- Claim C10 (amended: for a method form value that is a NON-EMPTY
string other than hf and vllm — an absent or empty value falls back to
the default hf): the method ValueError is mapped to HTTP 400 by the
plain-text endpoint but to HTTP 500 by the JSON endpoint for the same
valid upload, and the engine subprocess is never started. -/
theorem ocr_method_validation_status_split
    (tmp : String) (u : UploadFile) (m : String) (ii ih : Bool) (run : EngineRun)
    (hm0 : ¬ m = "") (hm1 : ¬ m = "hf") (hm2 : ¬ m = "vllm")
    (hval : validate_extension (detect_extension u) = true)
    (h0 : ¬ u.size = 0) (hmax : ¬ MAX_FILE_SIZE < u.size) :
    (ocr_endpoint tmp u (some m) ii ih run).response
        = .httpError 400 method_value_error
      ∧ (ocr_json_endpoint tmp u (some m) ii ih run).response
        = .httpError 500 method_value_error
      ∧ (ocr_endpoint tmp u (some m) ii ih run).subprocess_cmd = none := by
  have hpy : py_str_or (some m) ("hf") = m := by
    unfold py_str_or
    dsimp only
    rw [if_neg hm0]
  have hmbad : ¬ (m = "hf" ∨ m = "vllm") := by
    rintro (h | h)
    · exact hm1 h
    · exact hm2 h
  have hrun := run_chandra_ocr_bad_method ⟨tmp, "input" ++ detect_extension u⟩
    m ii ih run hmbad
  refine ⟨?_, ?_, ?_⟩
  · rw [ocr_endpoint_engine_result tmp u (some m) ii ih run
      (.error (.valueError method_value_error)) none
      hval h0 hmax (by rw [hpy]; exact hrun)]
  · rw [ocr_json_endpoint_engine_result tmp u (some m) ii ih run
      (.error (.valueError method_value_error)) none
      hval h0 hmax (by rw [hpy]; exact hrun)]
  · rw [ocr_endpoint_engine_result tmp u (some m) ii ih run
      (.error (.valueError method_value_error)) none
      hval h0 hmax (by rw [hpy]; exact hrun)]

/-- Witness for the amended C10: method xyz on a valid PDF upload gives
400 on /ocr and 500 on /ocr/json. -/
theorem ocr_method_validation_status_split_witness :
    (ocr_endpoint ("/ws") ⟨some ("application/pdf"), none, 10⟩ (some ("xyz")) false false
        .timedOut).response = .httpError 400 method_value_error
      ∧ (ocr_json_endpoint ("/ws") ⟨some ("application/pdf"), none, 10⟩ (some ("xyz")) false false
        .timedOut).response = .httpError 500 method_value_error :=
  have h := ocr_method_validation_status_split ("/ws") ⟨some ("application/pdf"), none, 10⟩
    ("xyz") false false .timedOut (by decide) (by decide) (by decide)
    (by decide) (by decide) (by decide)
  ⟨h.1, h.2.1⟩
